import Mathlib

/-!
# VPN monitor: deregistration cycle and liveness probe

Shallow embedding of `skywire-services/pkg/vpn-monitor/api/api.go`.

* The mutable fields of the Go `API` struct that the monitor reads and writes
  (`vpnKeys`, `deadVPNs`, the configuration and the service URLs) are the fields
  of the record `API`.  The record also carries the state of everything outside
  the process (`world`: the visor, the network, the service discovery) and a
  chronological `trace` of what the code did: every call of a visor method,
  every HTTP request, every logger call, and the entry of `isOnline`,
  `RunVpnClient` and `vpnDeregister`.
* Everything outside the package (the visor RPC methods, `net/http`,
  `encoding/json`, `net/url`, `fmt.Sprintf`) is a field of `Env`: a function
  from the world state to a result and a new world state.  Theorems quantify
  over every `Env` and every world state, hence over every outcome of the
  probes.
* `time.Sleep` changes no field and is left out.  `InitDeregistrationLoop` calls
  `deregister` again and again on the same `API`; a later cycle is `deregister`
  applied to the state the earlier one returned.
-/

namespace VpnMonitor

/-! ## Data model -/

/-- Public key `cipher.PubKey`: a byte array, each byte read modulo 256. -/
structure PubKey where
  bytes : List Nat
  deriving DecidableEq, Repr

/-- Signature `cipher.Sig`: a byte array. -/
structure Sig where
  bytes : List Nat
  deriving DecidableEq, Repr

/-- One lowercase hexadecimal digit. -/
def hexDigit (n : Nat) : Char :=
  match n % 16 with
  | 0 => '0' | 1 => '1' | 2 => '2' | 3 => '3' | 4 => '4' | 5 => '5' | 6 => '6' | 7 => '7'
  | 8 => '8' | 9 => '9' | 10 => 'a' | 11 => 'b' | 12 => 'c' | 13 => 'd' | 14 => 'e'
  | _ => 'f'

/-- Two hexadecimal digits of one byte, high nibble first. -/
def byteHex (b : Nat) : List Char :=
  [hexDigit ((b % 256) / 16), hexDigit (b % 256)]

/-- Hexadecimal text of a byte array (`hex.EncodeToString`). -/
def hexEncode (bs : List Nat) : String :=
  String.mk (bs.flatMap byteHex)

/-- Method `Hex` of `cipher.PubKey`. -/
def PubKey.Hex (pk : PubKey) : String := hexEncode pk.bytes

/-- Method `Hex` of `cipher.Sig`. -/
def Sig.Hex (sg : Sig) : String := hexEncode sg.bytes

/-- Go `error` values that are not nil.  Go compares errors by identity: the three
sentinels of package `internal/vpn` are values of their own, and every other
error is `other`, whatever its text. -/
inductive GoError where
  | ErrSetupNode
  | ErrNotPermitted
  | ErrServerOffline
  | other (msg : String)
  deriving DecidableEq, Repr

/-- Texts of the three sentinel errors of package `internal/vpn` (the package is
not part of the embedded file, so the texts are parameters). -/
structure VpnErrText where
  setupNode : String
  notPermitted : String
  serverOffline : String
  deriving DecidableEq, Repr

/-- Method `Error` of a Go error. -/
def GoError.Error (T : VpnErrText) : GoError → String
  | .ErrSetupNode => T.setupNode
  | .ErrNotPermitted => T.notPermitted
  | .ErrServerOffline => T.serverOffline
  | .other msg => msg

/-- Address `servicedisc.SWAddr` of a registered service. -/
structure SWAddr where
  pk : PubKey
  port : Nat
  deriving DecidableEq, Repr

/-- Method `PubKey` of `servicedisc.SWAddr`. -/
def SWAddr.PubKey (a : SWAddr) : PubKey := a.pk

/-- Record `servicedisc.Service`, reduced to the field the monitor reads. -/
structure Service where
  Addr : SWAddr
  deriving DecidableEq, Repr

/-- Type `vpnList` of the source. -/
abbrev vpnList := List Service

/-- Record `visor.TransportSummary`, reduced to the field the monitor reads. -/
structure TransportSummary where
  ID : Nat
  deriving DecidableEq, Repr

/-- Record `appserver.ConnectionSummary`; `Latency` is a `time.Duration`. -/
structure ConnectionSummary where
  Latency : Int
  deriving DecidableEq, Repr

/-- Response of an HTTP request: status code and body. -/
structure HTTPResponse where
  StatusCode : Nat
  Body : List Nat
  deriving DecidableEq, Repr

/-- Request built by `deregisterRequest`. -/
structure HTTPRequest where
  Method : String
  URL : String
  Header : List (String × List String)
  Body : List Nat
  deriving DecidableEq, Repr

/-- Logger levels used by the monitor. -/
inductive Level where
  | info
  | warn
  deriving DecidableEq, Repr

/-- Values handed to the logger as arguments or fields. -/
inductive LogVal where
  | str (s : String)
  | int (n : Int)
  | strs (l : List String)
  | err (e : GoError)
  | key (k : PubKey)
  deriving DecidableEq, Repr

/-- What the code did, in order. -/
inductive Event where
  | isOnline (key : PubKey)
  | RunVpnClient (serverPK : PubKey) (appName : String)
  | vpnDeregister (keys : List String)
  | AddTransport (key : PubKey) (tpType : String) (timeoutSec : Nat)
  | RemoveTransport (id : Nat)
  | SetAppPK (appName : String) (pk : PubKey)
  | StartApp (appName : String)
  | GetAppError (appName : String)
  | GetAppConnectionsSummary (appName : String)
  | StopApp (appName : String)
  | httpGet (url : String)
  | httpDo (req : HTTPRequest)
  | log (lvl : Level) (fields : List (String × LogVal)) (msg : String) (args : List LogVal)
  deriving DecidableEq, Repr

/-- Everything outside the package, as functions of the world state `σ`. -/
structure Env (σ : Type) where
  AddTransport : σ → PubKey → String → Nat → σ × Except GoError TransportSummary
  RemoveTransport : σ → Nat → σ × Option GoError
  SetAppPK : σ → String → PubKey → σ × Option GoError
  StartApp : σ → String → σ × Option GoError
  GetAppError : σ → String → σ × (String × Option GoError)
  GetAppConnectionsSummary : σ → String → σ × Except GoError (List ConnectionSummary)
  StopApp : σ → String → σ × Option GoError
  httpGet : σ → String → σ × Except GoError HTTPResponse
  httpDo : σ → HTTPRequest → σ × Except GoError HTTPResponse
  ioReadAll : σ → List Nat → σ × Except GoError (List Nat)
  jsonUnmarshal : List Nat → Except GoError vpnList
  jsonMarshal : List String → Except GoError (List Nat)
  urlParse : String → Except GoError String
  fmtSprintf : String → String

/-- Struct `Config` of the source. -/
structure Config where
  PK : PubKey
  SK : List Nat
  Sign : Sig
  deriving DecidableEq, Repr

/-- Struct `ServicesURLs` of the source. -/
structure ServicesURLs where
  SD : String
  UT : String
  deriving DecidableEq, Repr

/-- Struct `API` of the source together with the world it acts on and the trace of
what it did. -/
structure API (σ : Type) where
  Config : Config
  ServicesURLs : ServicesURLs
  world : σ
  vpnKeys : List PubKey
  deadVPNs : List String
  trace : List Event

variable {σ : Type}

/-- Append one event to the trace. -/
def API.emit (api : API σ) (e : Event) : API σ :=
  { api with trace := api.trace ++ [e] }

/-- Record a call that leaves the package and the world it left behind. -/
def API.call (api : API σ) (e : Event) (w : σ) : API σ :=
  { api with world := w, trace := api.trace ++ [e] }

/-- `skyenv.VPNClientName`. -/
def VPNClientName : String := "vpn-client"

/-- `network.DMSG`. -/
def DMSG : String := "dmsg"

/-- `http.StatusOK`. -/
def StatusOK : Nat := 200

/-- `atomic.AddInt64`: addition on `int64`, wrapping around. -/
def addInt64 (a d : Int) : Int :=
  (a + d + 2 ^ 63) % 2 ^ 64 - 2 ^ 63

/-- Logger call: level, fields attached with `WithField` or `WithError`, message
or format, and arguments. -/
def API.log (api : API σ) (lvl : Level) (fields : List (String × LogVal)) (msg : String)
    (args : List LogVal) : API σ :=
  api.emit (.log lvl fields msg args)

/-! ## Operations -/

/-- Function `RunVpnClient`: runs a vpn-client which connects to the vpn server.
Returns the connection summary and the error (`none` is Go's nil). -/
def RunVpnClient (T : VpnErrText) (E : Env σ) (serverPK : PubKey) (appName : String)
    (api : API σ) : (List ConnectionSummary × Option GoError) × API σ :=
  let api := api.emit (.RunVpnClient serverPK appName)
  let r := E.SetAppPK api.world appName serverPK
  let api := api.call (.SetAppPK appName serverPK) r.1
  match r.2 with
  | some err => (([], some err), api)
  | none =>
    let r := E.StartApp api.world appName
    let api := api.call (.StartApp appName) r.1
    match r.2 with
    | some err => (([], some err), api)
    | none =>
      -- the error returned next to the text is dropped by the source
      let r := E.GetAppError api.world appName
      let api := api.call (.GetAppError appName) r.1
      let appErr := r.2.1
      if appErr = GoError.Error T .ErrSetupNode then
        (([], some .ErrSetupNode), api)
      else if appErr = GoError.Error T .ErrNotPermitted then
        (([], some .ErrNotPermitted), api)
      else if appErr = GoError.Error T .ErrServerOffline then
        (([], some .ErrServerOffline), api)
      else
        let r := E.GetAppConnectionsSummary api.world appName
        let api := api.call (.GetAppConnectionsSummary appName) r.1
        match r.2 with
        | .error err => (([], some err), api)
        | .ok sum =>
          let r := E.StopApp api.world appName
          let api := api.call (.StopApp appName) r.1
          match r.2 with
          | some err => (([], some err), api)
          | none => ((sum, none), api)

/-- The `switch vpnErr` of `isOnline`: the values of `ok` and `latency` after it,
and the logger call of the branch taken. -/
def vpnErrSwitch (key : PubKey) (sum : List ConnectionSummary) (vpnErr : Option GoError)
    (api : API σ) : Bool × Int × API σ :=
  match vpnErr with
  | none =>
    match sum with
    | s0 :: _ => (true, s0.Latency, api)
    | [] => (true, 0, api)
  | some .ErrSetupNode =>
    (true, 0, api.log .info [("error", .err .ErrSetupNode)]
      "Vpn error on %v transport of %v." [.str DMSG, .key key])
  | some .ErrNotPermitted =>
    (true, 0, api.log .info [("error", .err .ErrNotPermitted)]
      "Vpn error on %v transport of %v." [.str DMSG, .key key])
  | some e =>
    (false, 0, api.log .info [("error", .err e)]
      "Vpn error on %v transport of %v." [.str DMSG, .key key])

/-- Method `isOnline`: the probe of one endpoint. -/
def isOnline (T : VpnErrText) (E : Env σ) (key : PubKey) (api : API σ) : Bool × API σ :=
  let api := api.emit (.isOnline key)
  let transport := DMSG
  let r := E.AddTransport api.world key transport 10
  let api := api.call (.AddTransport key transport 10) r.1
  match r.2 with
  | .error err =>
    (false, api.log .warn [("error", .err err)] "Failed to establish %v transport"
      [.str transport])
  | .ok tp =>
    let api := api.log .info [] "Established %v transport to %v" [.str transport, .key key]
    let rc := RunVpnClient T E key VPNClientName api
    let sw := vpnErrSwitch key rc.1.1 rc.1.2 rc.2
    let ok := sw.1
    let latency := sw.2.1
    let api := sw.2.2
    let rr := E.RemoveTransport api.world tp.ID
    let api := api.call (.RemoveTransport tp.ID) rr.1
    let api :=
      match rr.2 with
      | some err =>
        api.log .warn [] "Error removing %v transport of %v: %v"
          [.str transport, .key key, .err err]
      | none => api
    if ok && latency != 0 then (ok, api) else (ok, api)

/-- Method `testVPN`: probe one key, count it when online, record it when dead. -/
def testVPN (T : VpnErrText) (E : Env σ) (key : PubKey) (onlineVpnCount : Int)
    (api : API σ) : Int × API σ :=
  let r := isOnline T E key api
  let online := r.1
  let api := r.2
  let onlineVpnCount := if online then addInt64 onlineVpnCount 1 else onlineVpnCount
  let api := if !online then { api with deadVPNs := api.deadVPNs ++ [key.Hex] } else api
  (onlineVpnCount, api)

/-- Method `deregisterRequest`: the deregistration request for all services. -/
def deregisterRequest (T : VpnErrText) (E : Env σ) (keys : List String) (rawReqURL : String)
    (api : API σ) : Option GoError × API σ :=
  match E.urlParse rawReqURL with
  | .error err =>
    (some (.other ("Error on parsing deregistration URL : " ++ err.Error T)), api)
  | .ok reqURL =>
    match E.jsonMarshal keys with
    | .error err =>
      (some (.other ("Error on parsing deregistration keys : " ++ err.Error T)), api)
    | .ok jsonData =>
      let req : HTTPRequest :=
        { Method := "DELETE"
          URL := reqURL
          Header := [("NM-PK", [api.Config.PK.Hex]), ("NM-Sign", [api.Config.Sign.Hex])]
          Body := jsonData }
      let r := E.httpDo api.world req
      let api := api.call (.httpDo req) r.1
      match r.2 with
      | .error err =>
        (some (.other ("Error on send deregistration request : " ++ err.Error T)), api)
      | .ok res =>
        if res.StatusCode ≠ StatusOK then
          (some (.other ("Error deregistering vpn keys: status code "
            ++ toString res.StatusCode)), api)
        else (none, api)

/-- Method `vpnDeregister`: the Deregistration Reporter. -/
def vpnDeregister (T : VpnErrText) (E : Env σ) (keys : List String) (api : API σ) : API σ :=
  let api := api.emit (.vpnDeregister keys)
  let r := deregisterRequest T E keys
    (E.fmtSprintf (api.ServicesURLs.SD ++ "/api/services/deregister/vpn")) api
  let api := r.2
  match r.1 with
  | some err => api.log .warn [] "" [.err err]
  | none => api.log .info [] "Deregister request send to SD" []

/-- Function `getVPNs`: the Roster Fetcher. -/
def getVPNs (E : Env σ) (sdURL : String) (api : API σ) : Except GoError vpnList × API σ :=
  let r := E.httpGet api.world (sdURL ++ "/api/services?type=vpn")
  let api := api.call (.httpGet (sdURL ++ "/api/services?type=vpn")) r.1
  match r.2 with
  | .error err => (.error err, api)
  | .ok res =>
    let b := E.ioReadAll api.world res.Body
    let api := { api with world := b.1 }
    match b.2 with
    | .error err => (.error err, api)
    | .ok body =>
      match E.jsonUnmarshal body with
      | .error err => (.error err, api)
      | .ok data => (.ok data, api)

/-- Method `getVPNKeys`: reload `vpnKeys` from the service discovery. -/
def getVPNKeys (E : Env σ) (api : API σ) : API σ :=
  let r := getVPNs E api.ServicesURLs.SD api
  let api := r.2
  match r.1 with
  | .error err => api.log .warn [] "Error while fetching vpns: %v" [.err err]
  | .ok vpns =>
    let api := if vpns.length = 0 then api.log .warn [] "No vpns found... Trying again" [] else api
    let api := { api with vpnKeys := [] }
    let api := vpns.foldl (fun a vpn => { a with vpnKeys := a.vpnKeys ++ [vpn.Addr.PubKey] }) api
    api.log .info [("vpns", .int vpns.length)] "Vpn keys updated." []

/-- The loop `for _, key := range api.vpnKeys` of `deregister`. -/
def testVPNs (T : VpnErrText) (E : Env σ) :
    List PubKey → Int → API σ → Int × API σ
  | [], onlineVpnCount, api => (onlineVpnCount, api)
  | key :: rest, onlineVpnCount, api =>
    let r := testVPN T E key onlineVpnCount api
    testVPNs T E rest r.1 r.2

/-- Method `deregister`: one cycle, deregistering the dead VPN entries in the service
discovery. -/
def deregister (T : VpnErrText) (E : Env σ) (api : API σ) : API σ :=
  let api := api.log .info [] "VPN Deregistration started." []
  -- reload keys
  let api := getVPNKeys E api
  -- monitoring VPNs
  let onlineVpnCount : Int := 0
  let api := { api with deadVPNs := [] }
  let api :=
    if api.vpnKeys.length = 0 then
      api.log .warn [] "No VPN keys found" []
    else
      let r := testVPNs T E api.vpnKeys onlineVpnCount api
      let api := r.2.log .info [("count", .int r.1)] "VPNs online." []
      -- deregister dead VPNs
      if api.deadVPNs.length > 0 then vpnDeregister T E api.deadVPNs api else api
  api.log .info [("Number of dead VPNs", .int api.deadVPNs.length), ("PKs", .strs api.deadVPNs)]
    "VPN Deregistration completed." []

/-! ## Reading a trace -/

/-- Keys handed to `isOnline`, in order. -/
def probeCalls (tr : List Event) : List PubKey :=
  tr.filterMap fun e => match e with
    | .isOnline k => some k
    | _ => none

/-- Payloads handed to `vpnDeregister`, in order. -/
def deregCalls (tr : List Event) : List (List String) :=
  tr.filterMap fun e => match e with
    | .vpnDeregister ks => some ks
    | _ => none

/-- Transport ids handed to `Visor.RemoveTransport`, in order. -/
def removeCalls (tr : List Event) : List Nat :=
  tr.filterMap fun e => match e with
    | .RemoveTransport id => some id
    | _ => none

/-- Events of a client session: the entry of `RunVpnClient` and the visor calls it
makes. -/
def sessionCalls (tr : List Event) : List Event :=
  tr.filter fun e => match e with
    | .RunVpnClient _ _ => true
    | .SetAppPK _ _ => true
    | .StartApp _ => true
    | .GetAppError _ => true
    | .GetAppConnectionsSummary _ => true
    | .StopApp _ => true
    | _ => false

/-- Verdicts of the probes of one pass over `keys`, in order, threading the state
exactly as the loop of `deregister` does. -/
def probeVerdicts (T : VpnErrText) (E : Env σ) : List PubKey → API σ → List Bool
  | [], _ => []
  | key :: rest, api =>
    (isOnline T E key api).1 :: probeVerdicts T E rest (testVPN T E key 0 api).2

/-- Hex encodings of the keys whose verdict is Dead, in roster order. -/
def deadOf : List PubKey → List Bool → List String
  | key :: rest, v :: vs => if v then deadOf rest vs else key.Hex :: deadOf rest vs
  | _, _ => []

/-- State in which `isOnline` calls `RunVpnClient`, once `AddTransport` has opened
the transport: entry, the call of `AddTransport`, and the logger call. -/
def sessionStart (E : Env σ) (key : PubKey) (api : API σ) : API σ :=
  (((api.emit (.isOnline key)).call (.AddTransport key DMSG 10)
    (E.AddTransport api.world key DMSG 10).1).log
      .info [] "Established %v transport to %v" [.str DMSG, .key key])

/-- State in which `deregister` enters its loop: after the key reload and the reset
of `deadVPNs`. -/
def cycleStart (E : Env σ) (api : API σ) : API σ :=
  { getVPNKeys E (api.log .info [] "VPN Deregistration started." []) with deadVPNs := [] }

/-- The end of `isOnline` after the `switch vpnErr`: removal of the transport, the
logger call when the removal fails, and the two `return ok`. -/
def isOnlineTail (E : Env σ) (key : PubKey) (tp : TransportSummary)
    (sw : Bool × Int × API σ) : Bool × API σ :=
  let ok := sw.1
  let latency := sw.2.1
  let api := sw.2.2
  let rr := E.RemoveTransport api.world tp.ID
  let api := api.call (.RemoveTransport tp.ID) rr.1
  let api :=
    match rr.2 with
    | some err =>
      api.log .warn [] "Error removing %v transport of %v: %v"
        [.str DMSG, .key key, .err err]
    | none => api
  if ok && latency != 0 then (ok, api) else (ok, api)

/-- Answers of the visor to the five calls of a client session. -/
structure SessionAnswers where
  setAppPK : Option GoError
  startApp : Option GoError
  appErr : String
  summary : Except GoError (List ConnectionSummary)
  stopApp : Option GoError

/-- What the visor answers to the calls of `RunVpnClient` run from world `w`, each
call made in the world the calls before it left (whether or not `RunVpnClient`
gets that far). -/
def sessionAnswers (E : Env σ) (appName : String) (serverPK : PubKey) (w : σ) :
    SessionAnswers :=
  let r1 := E.SetAppPK w appName serverPK
  let r2 := E.StartApp r1.1 appName
  let r3 := E.GetAppError r2.1 appName
  let r4 := E.GetAppConnectionsSummary r3.1 appName
  let r5 := E.StopApp r4.1 appName
  { setAppPK := r1.2, startApp := r2.2, appErr := r3.2.1, summary := r4.2, stopApp := r5.2 }

/-! ## A scripted world, for concrete runs -/

/-- World that follows a script: the successive answers of the service discovery to
the roster query (`none`: the request fails; `some body`: the body, one byte per
registered key), the endpoints that accept no transport, the app error text the
client reports per server, whether removing a transport fails, the connection
summary the client reports, and the server key last set with `SetAppPK`. -/
structure Sim where
  replies : List (Option (List Nat))
  down : List PubKey
  appErrs : List (PubKey × String)
  removeFails : Bool
  summary : List ConnectionSummary
  serverPK : Option PubKey
  deriving DecidableEq, Repr

/-- App error text of the scripted client for the server it was pointed at. -/
def Sim.appError (w : Sim) : String :=
  match w.serverPK with
  | none => ""
  | some pk =>
    match w.appErrs.find? (fun p => p.1 = pk) with
    | some p => p.2
    | none => ""

/-- The scripted world as an `Env`. -/
def simEnv : Env Sim where
  AddTransport w key _ _ :=
    if key ∈ w.down then (w, .error (.other "dial timeout")) else (w, .ok { ID := 7 })
  RemoveTransport w _ :=
    (w, if w.removeFails then some (.other "transport not found") else none)
  SetAppPK w _ pk := ({ w with serverPK := some pk }, none)
  StartApp w _ := (w, none)
  GetAppError w _ := (w, (w.appError, none))
  GetAppConnectionsSummary w _ := (w, .ok w.summary)
  StopApp w _ := (w, none)
  httpGet w _ :=
    match w.replies with
    | [] => (w, .error (.other "connection refused"))
    | none :: rest => ({ w with replies := rest }, .error (.other "connection refused"))
    | some body :: rest => ({ w with replies := rest }, .ok { StatusCode := 200, Body := body })
  httpDo w _ := (w, .ok { StatusCode := 200, Body := [] })
  ioReadAll w body := (w, .ok body)
  jsonUnmarshal body := .ok (body.map fun b => { Addr := { pk := { bytes := [b] }, port := 44 } })
  jsonMarshal _ := .ok []
  urlParse u := .ok u
  fmtSprintf f := f

/-- Sample texts of the three sentinel errors. -/
def simText : VpnErrText :=
  { setupNode := "setup node", notPermitted := "not permitted", serverOffline := "server offline" }

/-- Endpoint A of the scenario. -/
def keyA : PubKey := { bytes := [10] }

/-- Endpoint B of the scenario. -/
def keyB : PubKey := { bytes := [11] }

/-- Endpoint C of the scenario. -/
def keyC : PubKey := { bytes := [12] }

/-- A freshly built `API` (as `New` leaves it) on the scripted world `w`. -/
def simAPI (w : Sim) : API Sim :=
  { Config := { PK := { bytes := [1] }, SK := [], Sign := { bytes := [2] } }
    ServicesURLs := { SD := "sd", UT := "ut" }
    world := w
    vpnKeys := []
    deadVPNs := []
    trace := [] }

/-- Scenario of the specification: roster `[A, B, C]`; A connects and sessions
cleanly, B accepts no transport, C reports `server offline`. -/
def scenario : API Sim :=
  simAPI { replies := [some [10, 11, 12]], down := [keyB],
           appErrs := [(keyC, "server offline")], removeFails := false,
           summary := [{ Latency := 25 }], serverPK := none }

/-- Two cycles: the first roster query answers `[B]`, the second one fails; B accepts
no transport. -/
def staleScenario : API Sim :=
  simAPI { replies := [some [11], none], down := [keyB],
           appErrs := [], removeFails := false, summary := [], serverPK := none }

/-- One endpoint whose client reports an app error text that is none of the three
known ones. -/
def unknownTextScenario : API Sim :=
  simAPI { replies := [], down := [],
           appErrs := [(keyA, "handshake failed")], removeFails := false,
           summary := [{ Latency := 25 }], serverPK := none }

/-- One reachable endpoint whose client reports no error and the given connection
summary; removing the transport fails or not. -/
def cleanScenario (summary : List ConnectionSummary) (removeFails : Bool) : API Sim :=
  simAPI { replies := [], down := [], appErrs := [], removeFails := removeFails,
           summary := summary, serverPK := none }

/-- One reachable endpoint whose client reports the app error text `txt`. -/
def appErrScenario (txt : String) (removeFails : Bool) : API Sim :=
  simAPI { replies := [], down := [], appErrs := [(keyA, txt)], removeFails := removeFails,
           summary := [], serverPK := none }

/-- A world in which the very first roster query fails. -/
def noFetchScenario : API Sim :=
  simAPI { replies := [none], down := [], appErrs := [], removeFails := false,
           summary := [], serverPK := none }

/-- A world in which the roster query answers the empty roster. -/
def emptyRosterScenario : API Sim :=
  simAPI { replies := [some []], down := [], appErrs := [], removeFails := false,
           summary := [], serverPK := none }

/-! ## Frame and trace lemmas -/

section Lemmas

variable (T : VpnErrText) (E : Env σ)

@[simp]
theorem probeCalls_append (a b : List Event) :
    probeCalls (a ++ b) = probeCalls a ++ probeCalls b := by
  simp [probeCalls]

@[simp]
theorem deregCalls_append (a b : List Event) :
    deregCalls (a ++ b) = deregCalls a ++ deregCalls b := by
  simp [deregCalls]

@[simp]
theorem removeCalls_append (a b : List Event) :
    removeCalls (a ++ b) = removeCalls a ++ removeCalls b := by
  simp [removeCalls]

@[simp]
theorem sessionCalls_append (a b : List Event) :
    sessionCalls (a ++ b) = sessionCalls a ++ sessionCalls b := by
  simp [sessionCalls]

@[simp]
theorem log_Config (api : API σ) (l : Level) (f : List (String × LogVal)) (m : String)
    (a : List LogVal) : (api.log l f m a).Config = api.Config := rfl

@[simp]
theorem log_ServicesURLs (api : API σ) (l : Level) (f : List (String × LogVal))
    (m : String) (a : List LogVal) : (api.log l f m a).ServicesURLs = api.ServicesURLs := rfl

@[simp]
theorem log_vpnKeys (api : API σ) (l : Level) (f : List (String × LogVal)) (m : String)
    (a : List LogVal) : (api.log l f m a).vpnKeys = api.vpnKeys := rfl

@[simp]
theorem log_deadVPNs (api : API σ) (l : Level) (f : List (String × LogVal)) (m : String)
    (a : List LogVal) : (api.log l f m a).deadVPNs = api.deadVPNs := rfl

@[simp]
theorem log_world (api : API σ) (l : Level) (f : List (String × LogVal)) (m : String)
    (a : List LogVal) : (api.log l f m a).world = api.world := rfl

@[simp]
theorem log_trace (api : API σ) (l : Level) (f : List (String × LogVal)) (m : String)
    (a : List LogVal) : (api.log l f m a).trace = api.trace ++ [.log l f m a] := rfl

@[simp]
theorem probeCalls_log (l : Level) (f : List (String × LogVal)) (m : String)
    (a : List LogVal) (tr : List Event) : probeCalls (.log l f m a :: tr) = probeCalls tr := rfl

@[simp]
theorem probeCalls_nil : probeCalls [] = [] := rfl

@[simp]
theorem deregCalls_log (l : Level) (f : List (String × LogVal)) (m : String)
    (a : List LogVal) (tr : List Event) : deregCalls (.log l f m a :: tr) = deregCalls tr := rfl

@[simp]
theorem deregCalls_nil : deregCalls [] = [] := rfl

@[simp]
theorem removeCalls_log (l : Level) (f : List (String × LogVal)) (m : String)
    (a : List LogVal) (tr : List Event) : removeCalls (.log l f m a :: tr) = removeCalls tr := rfl

@[simp]
theorem removeCalls_nil : removeCalls [] = [] := rfl

/-- What `RunVpnClient` leaves alone: the fields of `API`, and the probe, report and
removal calls of the trace. -/
theorem RunVpnClient_frame (serverPK : PubKey) (appName : String) (api : API σ) :
    (RunVpnClient T E serverPK appName api).2.Config = api.Config ∧
    (RunVpnClient T E serverPK appName api).2.ServicesURLs = api.ServicesURLs ∧
    (RunVpnClient T E serverPK appName api).2.vpnKeys = api.vpnKeys ∧
    (RunVpnClient T E serverPK appName api).2.deadVPNs = api.deadVPNs ∧
    probeCalls (RunVpnClient T E serverPK appName api).2.trace = probeCalls api.trace ∧
    deregCalls (RunVpnClient T E serverPK appName api).2.trace = deregCalls api.trace ∧
    removeCalls (RunVpnClient T E serverPK appName api).2.trace = removeCalls api.trace := by
  simp only [RunVpnClient]
  repeat' split
  all_goals simp [API.call, API.emit, probeCalls, deregCalls, removeCalls]

/-- The result and the world left by `RunVpnClient` depend on the world only. -/
theorem RunVpnClient_world (serverPK : PubKey) (appName : String) (a b : API σ)
    (h : a.world = b.world) :
    (RunVpnClient T E serverPK appName a).1 = (RunVpnClient T E serverPK appName b).1 ∧
    (RunVpnClient T E serverPK appName a).2.world
      = (RunVpnClient T E serverPK appName b).2.world := by
  simp only [RunVpnClient, API.call, API.emit, h]
  repeat' split
  all_goals simp_all

/-- Verdict of the `switch vpnErr`: Alive exactly for nil and the two benign
sentinels. -/
theorem vpnErrSwitch_verdict (key : PubKey) (sum : List ConnectionSummary)
    (vpnErr : Option GoError) (api : API σ) :
    (vpnErrSwitch key sum vpnErr api).1 = true ↔
      (vpnErr = none ∨ vpnErr = some .ErrSetupNode ∨ vpnErr = some .ErrNotPermitted) := by
  unfold vpnErrSwitch
  split
  · split <;> simp
  · simp
  · simp
  · rename_i e h1 h2
    simp
    exact ⟨fun h => h1 (by rw [h]), fun h => h2 (by rw [h])⟩

/-- What the `switch vpnErr` leaves alone. -/
theorem vpnErrSwitch_frame (key : PubKey) (sum : List ConnectionSummary)
    (vpnErr : Option GoError) (api : API σ) :
    (vpnErrSwitch key sum vpnErr api).2.2.Config = api.Config ∧
    (vpnErrSwitch key sum vpnErr api).2.2.ServicesURLs = api.ServicesURLs ∧
    (vpnErrSwitch key sum vpnErr api).2.2.vpnKeys = api.vpnKeys ∧
    (vpnErrSwitch key sum vpnErr api).2.2.deadVPNs = api.deadVPNs ∧
    (vpnErrSwitch key sum vpnErr api).2.2.world = api.world ∧
    probeCalls (vpnErrSwitch key sum vpnErr api).2.2.trace = probeCalls api.trace ∧
    deregCalls (vpnErrSwitch key sum vpnErr api).2.2.trace = deregCalls api.trace ∧
    removeCalls (vpnErrSwitch key sum vpnErr api).2.2.trace = removeCalls api.trace := by
  unfold vpnErrSwitch
  repeat' split
  all_goals simp [API.log, API.emit, probeCalls, deregCalls, removeCalls]

/-- With the transport open, the verdict of `isOnline` is the value of `ok` after
the `switch vpnErr`. -/
theorem isOnline_connected (key : PubKey) (api : API σ) (tp : TransportSummary)
    (hconn : (E.AddTransport api.world key DMSG 10).2 = .ok tp) :
    (isOnline T E key api).1 =
      (vpnErrSwitch key
        (RunVpnClient T E key VPNClientName (sessionStart E key api)).1.1
        (RunVpnClient T E key VPNClientName (sessionStart E key api)).1.2
        (RunVpnClient T E key VPNClientName (sessionStart E key api)).2).1 := by
  simp only [isOnline, sessionStart, API.emit, API.call, API.log, hconn]
  split <;> rfl

/-- With no transport, `isOnline` answers Dead after three events. -/
theorem isOnline_unconnected (key : PubKey) (api : API σ) (err : GoError)
    (hconn : (E.AddTransport api.world key DMSG 10).2 = .error err) :
    (isOnline T E key api).1 = false ∧
    (isOnline T E key api).2.trace = api.trace ++
      [.isOnline key, .AddTransport key DMSG 10,
       .log .warn [("error", .err err)] "Failed to establish %v transport" [.str DMSG]] := by
  simp [isOnline, API.emit, API.call, API.log, hconn]

/-- What `isOnline` leaves alone, and the one probe call it adds to the trace. -/
theorem isOnline_frame (key : PubKey) (api : API σ) :
    (isOnline T E key api).2.Config = api.Config ∧
    (isOnline T E key api).2.ServicesURLs = api.ServicesURLs ∧
    (isOnline T E key api).2.vpnKeys = api.vpnKeys ∧
    (isOnline T E key api).2.deadVPNs = api.deadVPNs ∧
    probeCalls (isOnline T E key api).2.trace = probeCalls api.trace ++ [key] ∧
    deregCalls (isOnline T E key api).2.trace = deregCalls api.trace := by
  simp only [isOnline]
  split
  · simp [API.call, API.emit, API.log, probeCalls, deregCalls]
  · rename_i tp htp
    have hR := RunVpnClient_frame T E key VPNClientName
      (((api.emit (.isOnline key)).call (.AddTransport key DMSG 10)
        (E.AddTransport (api.emit (.isOnline key)).world key DMSG 10).1).log
          .info [] "Established %v transport to %v" [.str DMSG, .key key])
    have hS := vpnErrSwitch_frame key
      (RunVpnClient T E key VPNClientName
        (((api.emit (.isOnline key)).call (.AddTransport key DMSG 10)
          (E.AddTransport (api.emit (.isOnline key)).world key DMSG 10).1).log
            .info [] "Established %v transport to %v" [.str DMSG, .key key])).1.1
      (RunVpnClient T E key VPNClientName
        (((api.emit (.isOnline key)).call (.AddTransport key DMSG 10)
          (E.AddTransport (api.emit (.isOnline key)).world key DMSG 10).1).log
            .info [] "Established %v transport to %v" [.str DMSG, .key key])).1.2
      (RunVpnClient T E key VPNClientName
        (((api.emit (.isOnline key)).call (.AddTransport key DMSG 10)
          (E.AddTransport (api.emit (.isOnline key)).world key DMSG 10).1).log
            .info [] "Established %v transport to %v" [.str DMSG, .key key])).2
    obtain ⟨r1, r2, r3, r4, r5, r6, -⟩ := hR
    obtain ⟨s1, s2, s3, s4, -, s6, s7, -⟩ := hS
    have e1 : probeCalls (((api.emit (.isOnline key)).call (.AddTransport key DMSG 10)
        (E.AddTransport (api.emit (.isOnline key)).world key DMSG 10).1).log
          .info [] "Established %v transport to %v" [.str DMSG, .key key]).trace
        = probeCalls api.trace ++ [key] := by
      simp [API.call, API.emit, API.log, probeCalls]
    have e2 : deregCalls (((api.emit (.isOnline key)).call (.AddTransport key DMSG 10)
        (E.AddTransport (api.emit (.isOnline key)).world key DMSG 10).1).log
          .info [] "Established %v transport to %v" [.str DMSG, .key key]).trace
        = deregCalls api.trace := by
      simp [API.call, API.emit, API.log, deregCalls]
    rw [e1] at r5
    rw [e2] at r6
    rw [r5] at s6
    rw [r6] at s7
    rw [r1] at s1
    rw [r2] at s2
    rw [r3] at s3
    rw [r4] at s4
    split <;> split <;>
      simp [API.call, API.emit, API.log, s1, s2, s3, s4, s6, s7] <;>
      simp [probeCalls, deregCalls, API.call, API.emit, API.log] at * <;>
      simp_all

/-- With the transport open, `isOnline` is the session, the switch and the tail. -/
theorem isOnline_connected_eq (key : PubKey) (api : API σ) (tp : TransportSummary)
    (hconn : (E.AddTransport api.world key DMSG 10).2 = .ok tp) :
    isOnline T E key api =
      isOnlineTail E key tp (vpnErrSwitch key
        (RunVpnClient T E key VPNClientName (sessionStart E key api)).1.1
        (RunVpnClient T E key VPNClientName (sessionStart E key api)).1.2
        (RunVpnClient T E key VPNClientName (sessionStart E key api)).2) := by
  simp only [isOnline, isOnlineTail, sessionStart, API.emit, API.call, API.log, hconn]

/-- The tail of `isOnline`: the verdict is `ok`, and one removal call is added. -/
theorem isOnlineTail_spec (key : PubKey) (tp : TransportSummary) (sw : Bool × Int × API σ) :
    (isOnlineTail E key tp sw).1 = sw.1 ∧
    removeCalls (isOnlineTail E key tp sw).2.trace = removeCalls sw.2.2.trace ++ [tp.ID] := by
  simp only [isOnlineTail]
  split <;> split <;> simp [API.call, API.log, API.emit, removeCalls]

/-- With the transport open, `isOnline` adds exactly one removal call to the trace,
for the transport it opened. -/
theorem isOnline_removeCalls (key : PubKey) (api : API σ) (tp : TransportSummary)
    (hconn : (E.AddTransport api.world key DMSG 10).2 = .ok tp) :
    removeCalls (isOnline T E key api).2.trace = removeCalls api.trace ++ [tp.ID] := by
  have hR := (RunVpnClient_frame T E key VPNClientName (sessionStart E key api)).2.2.2.2.2.2
  have hS := (vpnErrSwitch_frame key
    (RunVpnClient T E key VPNClientName (sessionStart E key api)).1.1
    (RunVpnClient T E key VPNClientName (sessionStart E key api)).1.2
    (RunVpnClient T E key VPNClientName (sessionStart E key api)).2).2.2.2.2.2.2.2
  have e1 : removeCalls (sessionStart E key api).trace = removeCalls api.trace := by
    simp [sessionStart, API.call, API.emit, API.log, removeCalls]
  rw [isOnline_connected_eq T E key api tp hconn, (isOnlineTail_spec E key tp _).2, hS, hR, e1]

/-- The state left by `testVPN` does not depend on the counter. -/
theorem testVPN_state (key : PubKey) (c d : Int) (api : API σ) :
    (testVPN T E key c api).2 = (testVPN T E key d api).2 := by
  simp [testVPN]

/-- What `testVPN` does to the dead list and the trace. -/
theorem testVPN_frame (key : PubKey) (c : Int) (api : API σ) :
    (testVPN T E key c api).2.Config = api.Config ∧
    (testVPN T E key c api).2.ServicesURLs = api.ServicesURLs ∧
    (testVPN T E key c api).2.vpnKeys = api.vpnKeys ∧
    (testVPN T E key c api).2.deadVPNs
      = api.deadVPNs ++ (if (isOnline T E key api).1 then [] else [key.Hex]) ∧
    probeCalls (testVPN T E key c api).2.trace = probeCalls api.trace ++ [key] ∧
    deregCalls (testVPN T E key c api).2.trace = deregCalls api.trace := by
  obtain ⟨h1, h2, h3, h4, h5, h6⟩ := isOnline_frame T E key api
  simp only [testVPN]
  cases h : (isOnline T E key api).1 <;> simp [h1, h2, h3, h4, h5, h6]

/-- The loop of `deregister`: the dead list grows by the keys judged Dead, in order,
and every key is probed once, in order. -/
theorem testVPNs_frame (keys : List PubKey) (c : Int) (api : API σ) :
    (testVPNs T E keys c api).2.Config = api.Config ∧
    (testVPNs T E keys c api).2.ServicesURLs = api.ServicesURLs ∧
    (testVPNs T E keys c api).2.vpnKeys = api.vpnKeys ∧
    (testVPNs T E keys c api).2.deadVPNs
      = api.deadVPNs ++ deadOf keys (probeVerdicts T E keys api) ∧
    probeCalls (testVPNs T E keys c api).2.trace = probeCalls api.trace ++ keys ∧
    deregCalls (testVPNs T E keys c api).2.trace = deregCalls api.trace := by
  induction keys generalizing c api with
  | nil => simp [testVPNs, probeVerdicts, deadOf]
  | cons key rest ih =>
    obtain ⟨h1, h2, h3, h4, h5, h6⟩ := testVPN_frame T E key c api
    obtain ⟨i1, i2, i3, i4, i5, i6⟩ := ih (testVPN T E key c api).1 (testVPN T E key c api).2
    have hst := testVPN_state T E key 0 c api
    simp only [testVPNs, probeVerdicts, deadOf, hst]
    rw [i1, i2, i3, i4, i5, i6, h1, h2, h3, h4, h5, h6]
    cases h : (isOnline T E key api).1 <;> simp

/-- The counter after the loop: the number of Alive verdicts, on `int64`. -/
theorem testVPNs_count (keys : List PubKey) (c : Int) (api : API σ) :
    (testVPNs T E keys c api).1
      = (probeVerdicts T E keys api).foldl (fun n v => if v then addInt64 n 1 else n) c := by
  induction keys generalizing c api with
  | nil => simp [testVPNs, probeVerdicts]
  | cons key rest ih =>
    have hst := testVPN_state T E key 0 c api
    simp only [testVPNs, probeVerdicts, List.foldl_cons, hst]
    rw [ih]
    simp [testVPN]

/-- One verdict per key. -/
theorem probeVerdicts_length (keys : List PubKey) (api : API σ) :
    (probeVerdicts T E keys api).length = keys.length := by
  induction keys generalizing api with
  | nil => simp [probeVerdicts]
  | cons key rest ih => simp [probeVerdicts, ih]

/-- As many dead entries as Dead verdicts. -/
theorem deadOf_length (keys : List PubKey) (vs : List Bool) (h : vs.length = keys.length) :
    (deadOf keys vs).length = vs.count false := by
  induction keys generalizing vs with
  | nil =>
    cases vs with
    | nil => simp [deadOf]
    | cons v vs => simp at h
  | cons key rest ih =>
    cases vs with
    | nil => simp at h
    | cons v vs =>
      have h2 : vs.length = rest.length := by simpa using h
      cases v <;> simp [deadOf, ih vs h2]

/-- The dead entries are hex encodings of roster keys, in roster order. -/
theorem deadOf_sublist (keys : List PubKey) (vs : List Bool) :
    List.Sublist (deadOf keys vs) (keys.map PubKey.Hex) := by
  induction keys generalizing vs with
  | nil => simp [deadOf]
  | cons key rest ih =>
    cases vs with
    | nil => simp [deadOf]
    | cons v vs =>
      cases v
      · simpa [deadOf] using ih vs
      · simpa [deadOf] using (ih vs).trans (List.sublist_cons_self _ _)

/-- What `deregisterRequest` leaves alone. -/
theorem deregisterRequest_frame (keys : List String) (url : String) (api : API σ) :
    (deregisterRequest T E keys url api).2.Config = api.Config ∧
    (deregisterRequest T E keys url api).2.ServicesURLs = api.ServicesURLs ∧
    (deregisterRequest T E keys url api).2.vpnKeys = api.vpnKeys ∧
    (deregisterRequest T E keys url api).2.deadVPNs = api.deadVPNs ∧
    probeCalls (deregisterRequest T E keys url api).2.trace = probeCalls api.trace ∧
    deregCalls (deregisterRequest T E keys url api).2.trace = deregCalls api.trace := by
  simp only [deregisterRequest]
  repeat' split
  all_goals simp [API.call, probeCalls, deregCalls]

/-- The reporter records one call with its payload and leaves the fields alone. -/
theorem vpnDeregister_frame (keys : List String) (api : API σ) :
    (vpnDeregister T E keys api).Config = api.Config ∧
    (vpnDeregister T E keys api).ServicesURLs = api.ServicesURLs ∧
    (vpnDeregister T E keys api).vpnKeys = api.vpnKeys ∧
    (vpnDeregister T E keys api).deadVPNs = api.deadVPNs ∧
    probeCalls (vpnDeregister T E keys api).trace = probeCalls api.trace ∧
    deregCalls (vpnDeregister T E keys api).trace = deregCalls api.trace ++ [keys] := by
  obtain ⟨h1, h2, h3, h4, h5, h6⟩ := deregisterRequest_frame T E keys
    (E.fmtSprintf ((api.emit (.vpnDeregister keys)).ServicesURLs.SD
      ++ "/api/services/deregister/vpn")) (api.emit (.vpnDeregister keys))
  simp only [vpnDeregister]
  simp only [API.emit, API.log] at h1 h2 h3 h4 h5 h6 ⊢
  split <;> simp only [probeCalls_append, deregCalls_append, h1, h2, h3, h4, h5, h6] <;>
    simp [probeCalls, deregCalls]

/-- The fetch leaves the fields alone and records one request. -/
theorem getVPNs_frame (sdURL : String) (api : API σ) :
    (getVPNs E sdURL api).2.Config = api.Config ∧
    (getVPNs E sdURL api).2.ServicesURLs = api.ServicesURLs ∧
    (getVPNs E sdURL api).2.vpnKeys = api.vpnKeys ∧
    (getVPNs E sdURL api).2.deadVPNs = api.deadVPNs ∧
    (getVPNs E sdURL api).2.trace
      = api.trace ++ [.httpGet (sdURL ++ "/api/services?type=vpn")] := by
  simp only [getVPNs]
  repeat' split
  all_goals simp [API.call]

/-- The result of the fetch depends on the world only. -/
theorem getVPNs_world (sdURL : String) (a b : API σ) (h : a.world = b.world) :
    (getVPNs E sdURL a).1 = (getVPNs E sdURL b).1 := by
  simp only [getVPNs, API.call, h]
  repeat' split
  all_goals simp_all

/-- The key list built by the loop of `getVPNKeys`. -/
theorem getVPNKeys_foldl (vpns : vpnList) (api : API σ) :
    vpns.foldl (fun a vpn => { a with vpnKeys := a.vpnKeys ++ [vpn.Addr.PubKey] }) api
      = { api with vpnKeys := api.vpnKeys ++ vpns.map fun v => v.Addr.PubKey } := by
  induction vpns generalizing api with
  | nil => simp
  | cons v rest ih => simp [List.foldl_cons, ih]

/-- When the fetch succeeds, `getVPNKeys` replaces the keys by those of the roster. -/
theorem getVPNKeys_ok (api : API σ) (R : vpnList)
    (hfetch : (getVPNs E api.ServicesURLs.SD api).1 = .ok R) :
    (getVPNKeys E api).vpnKeys = R.map (fun v => v.Addr.PubKey) ∧
    (getVPNKeys E api).Config = api.Config ∧
    (getVPNKeys E api).ServicesURLs = api.ServicesURLs ∧
    (getVPNKeys E api).trace = api.trace ++
      (.httpGet (api.ServicesURLs.SD ++ "/api/services?type=vpn") ::
        ((if R.length = 0 then [.log .warn [] "No vpns found... Trying again" []] else []) ++
          [.log .info [("vpns", .int R.length)] "Vpn keys updated." []])) := by
  obtain ⟨h1, h2, h3, h4, h5⟩ := getVPNs_frame E api.ServicesURLs.SD api
  simp only [getVPNKeys, hfetch, getVPNKeys_foldl]
  by_cases hR : R.length = 0 <;> simp [hR, API.log, API.emit, h1, h2, h5]

/-- When the fetch fails, `getVPNKeys` keeps the keys it had. -/
theorem getVPNKeys_error (api : API σ) (err : GoError)
    (hfetch : (getVPNs E api.ServicesURLs.SD api).1 = .error err) :
    (getVPNKeys E api).vpnKeys = api.vpnKeys ∧
    (getVPNKeys E api).Config = api.Config ∧
    (getVPNKeys E api).ServicesURLs = api.ServicesURLs ∧
    (getVPNKeys E api).trace = api.trace ++
      [.httpGet (api.ServicesURLs.SD ++ "/api/services?type=vpn"),
       .log .warn [] "Error while fetching vpns: %v" [.err err]] := by
  obtain ⟨h1, h2, h3, h4, h5⟩ := getVPNs_frame E api.ServicesURLs.SD api
  simp [getVPNKeys, hfetch, API.log, API.emit, h1, h2, h3, h5]

/-- One cycle, from the state in which the loop is entered: the dead list, the
probes and the reporter calls. -/
theorem deregister_spec (api : API σ) :
    (deregister T E api).vpnKeys = (cycleStart E api).vpnKeys ∧
    (deregister T E api).deadVPNs
      = deadOf (cycleStart E api).vpnKeys
          (probeVerdicts T E (cycleStart E api).vpnKeys (cycleStart E api)) ∧
    probeCalls (deregister T E api).trace
      = probeCalls (cycleStart E api).trace ++ (cycleStart E api).vpnKeys ∧
    deregCalls (deregister T E api).trace
      = deregCalls (cycleStart E api).trace ++
          (if deadOf (cycleStart E api).vpnKeys
                (probeVerdicts T E (cycleStart E api).vpnKeys (cycleStart E api)) = []
           then []
           else [deadOf (cycleStart E api).vpnKeys
                (probeVerdicts T E (cycleStart E api).vpnKeys (cycleStart E api))]) := by
  have hd : (cycleStart E api).deadVPNs = [] := rfl
  obtain ⟨-, -, t3, t4, t5, t6⟩ :=
    testVPNs_frame T E (cycleStart E api).vpnKeys 0 (cycleStart E api)
  rw [hd, List.nil_append] at t4
  have hunf : deregister T E api =
      (let a :=
        if (cycleStart E api).vpnKeys.length = 0 then
          (cycleStart E api).log .warn [] "No VPN keys found" []
        else
          let r := testVPNs T E (cycleStart E api).vpnKeys 0 (cycleStart E api)
          let a := r.2.log .info [("count", .int r.1)] "VPNs online." []
          if a.deadVPNs.length > 0 then vpnDeregister T E a.deadVPNs a else a
       a.log .info [("Number of dead VPNs", .int a.deadVPNs.length), ("PKs", .strs a.deadVPNs)]
        "VPN Deregistration completed." []) := rfl
  rw [hunf]
  by_cases hk : (cycleStart E api).vpnKeys.length = 0
  · have hk2 : (cycleStart E api).vpnKeys = [] := List.length_eq_zero.mp hk
    simp [hk2, hd, deadOf, probeVerdicts]
  · generalize cycleStart E api = c0 at *
    generalize testVPNs T E c0.vpnKeys 0 c0 = r at *
    generalize deadOf c0.vpnKeys (probeVerdicts T E c0.vpnKeys c0) = D at *
    simp only [hk, if_false, log_deadVPNs, t4]
    by_cases hD0 : D = []
    · subst hD0
      simp [t3, t4, t5, t6]
    · have hpos : D.length > 0 := List.length_pos.mpr hD0
      obtain ⟨-, -, v3, v4, v5, v6⟩ := vpnDeregister_frame T E D
        (r.2.log .info [("count", .int r.1)] "VPNs online." [])
      simp [hpos, hD0, v3, v4, v5, v6, t3, t4, t5, t6]

/-- The result of `RunVpnClient` as a function of the answers of the visor. -/
theorem RunVpnClient_result (serverPK : PubKey) (appName : String) (api : API σ) :
    (RunVpnClient T E serverPK appName api).1 =
      match (sessionAnswers E appName serverPK api.world).setAppPK with
      | some err => ([], some err)
      | none =>
        match (sessionAnswers E appName serverPK api.world).startApp with
        | some err => ([], some err)
        | none =>
          if (sessionAnswers E appName serverPK api.world).appErr = T.setupNode then
            ([], some .ErrSetupNode)
          else if (sessionAnswers E appName serverPK api.world).appErr = T.notPermitted then
            ([], some .ErrNotPermitted)
          else if (sessionAnswers E appName serverPK api.world).appErr = T.serverOffline then
            ([], some .ErrServerOffline)
          else
            match (sessionAnswers E appName serverPK api.world).summary with
            | .error err => ([], some err)
            | .ok sum =>
              match (sessionAnswers E appName serverPK api.world).stopApp with
              | some err => ([], some err)
              | none => (sum, none) := by
  simp only [RunVpnClient, sessionAnswers, API.call, API.emit, GoError.Error]
  repeat' split
  all_goals simp_all

/-- Replacing `RemoveTransport` does not change the session. -/
theorem RunVpnClient_remove (f : σ → Nat → σ × Option GoError) (serverPK : PubKey)
    (appName : String) (api : API σ) :
    RunVpnClient T { E with RemoveTransport := f } serverPK appName api
      = RunVpnClient T E serverPK appName api := rfl

/-- Replacing `RemoveTransport` does not change the verdict of `isOnline`. -/
theorem isOnline_remove (f : σ → Nat → σ × Option GoError) (key : PubKey) (api : API σ) :
    (isOnline T { E with RemoveTransport := f } key api).1 = (isOnline T E key api).1 := by
  cases h : (E.AddTransport api.world key DMSG 10).2 with
  | error err =>
    rw [(isOnline_unconnected T E key api err h).1]
    exact (isOnline_unconnected T { E with RemoveTransport := f } key api err h).1
  | ok tp =>
    rw [isOnline_connected T E key api tp h]
    exact isOnline_connected T { E with RemoveTransport := f } key api tp h

/-- The loop is entered with the keys of the roster when the fetch succeeds. -/
theorem cycleStart_ok (api : API σ) (R : vpnList)
    (hfetch : (getVPNs E api.ServicesURLs.SD api).1 = .ok R) :
    (cycleStart E api).vpnKeys = R.map (fun v => v.Addr.PubKey) ∧
    (cycleStart E api).trace = api.trace ++
      (.log .info [] "VPN Deregistration started." [] ::
       .httpGet (api.ServicesURLs.SD ++ "/api/services?type=vpn") ::
        ((if R.length = 0 then [.log .warn [] "No vpns found... Trying again" []] else []) ++
          [.log .info [("vpns", .int R.length)] "Vpn keys updated." []])) := by
  have h2 : (getVPNs E (api.log .info [] "VPN Deregistration started." []).ServicesURLs.SD
      (api.log .info [] "VPN Deregistration started." [])).1 = .ok R := by
    rw [← hfetch]
    exact getVPNs_world E _ _ _ rfl
  obtain ⟨k1, -, -, k4⟩ := getVPNKeys_ok E _ R h2
  simp only [cycleStart, k1, k4]
  simp

/-- The loop is entered with the keys of the earlier cycle when the fetch fails. -/
theorem cycleStart_error (api : API σ) (err : GoError)
    (hfetch : (getVPNs E api.ServicesURLs.SD api).1 = .error err) :
    (cycleStart E api).vpnKeys = api.vpnKeys ∧
    (cycleStart E api).trace = api.trace ++
      [.log .info [] "VPN Deregistration started." [],
       .httpGet (api.ServicesURLs.SD ++ "/api/services?type=vpn"),
       .log .warn [] "Error while fetching vpns: %v" [.err err]] := by
  have h2 : (getVPNs E (api.log .info [] "VPN Deregistration started." []).ServicesURLs.SD
      (api.log .info [] "VPN Deregistration started." [])).1 = .error err := by
    rw [← hfetch]
    exact getVPNs_world E _ _ _ rfl
  obtain ⟨k1, -, -, k4⟩ := getVPNKeys_error E _ err h2
  simp only [cycleStart, k1, k4]
  simp

end Lemmas

/-! ## The deregistration cycle -/

section Cycle

variable (T : VpnErrText) (E : Env σ)

/-- C1: when the roster fetch of a cycle returns the roster `R`, then for every
outcome of the probes the Dead Set `api.deadVPNs` left by `deregister` is a subset
of `R`: every entry is the hex encoding of the key of some member of `R` (and the
entries come in roster order). -/
theorem deregister_deadVPNs_subset_roster (api : API σ) (R : vpnList)
    (hfetch : (getVPNs E api.ServicesURLs.SD api).1 = .ok R) :
    (∀ d ∈ (deregister T E api).deadVPNs, ∃ v ∈ R, d = v.Addr.PubKey.Hex) ∧
    List.Sublist (deregister T E api).deadVPNs (R.map fun v => v.Addr.PubKey.Hex) := by
  obtain ⟨-, hdead, -, -⟩ := deregister_spec T E api
  obtain ⟨hkeys, -⟩ := cycleStart_ok E api R hfetch
  have hsub : List.Sublist (deregister T E api).deadVPNs (R.map fun v => v.Addr.PubKey.Hex) := by
    rw [hdead, hkeys]
    have h := deadOf_sublist (R.map fun v => v.Addr.PubKey)
      (probeVerdicts T E (R.map fun v => v.Addr.PubKey) (cycleStart E api))
    simpa [List.map_map, Function.comp_def] using h
  refine ⟨fun d hd => ?_, hsub⟩
  have hmem := hsub.subset hd
  obtain ⟨v, hv, rfl⟩ := List.mem_map.mp hmem
  exact ⟨v, hv, rfl⟩

/-- Witness of C1 on the scenario roster `[A, B, C]`. -/
theorem deregister_deadVPNs_subset_roster_witness :
    (getVPNs simEnv scenario.ServicesURLs.SD scenario).1
      = .ok [{ Addr := { pk := keyA, port := 44 } }, { Addr := { pk := keyB, port := 44 } },
             { Addr := { pk := keyC, port := 44 } }] ∧
    ((∀ d ∈ (deregister simText simEnv scenario).deadVPNs,
        ∃ v ∈ [({ Addr := { pk := keyA, port := 44 } } : Service),
               { Addr := { pk := keyB, port := 44 } }, { Addr := { pk := keyC, port := 44 } }],
          d = v.Addr.PubKey.Hex) ∧
      List.Sublist (deregister simText simEnv scenario).deadVPNs
        ([({ Addr := { pk := keyA, port := 44 } } : Service),
          { Addr := { pk := keyB, port := 44 } }, { Addr := { pk := keyC, port := 44 } }].map
            fun v => v.Addr.PubKey.Hex)) :=
  ⟨rfl, deregister_deadVPNs_subset_roster simText simEnv scenario _ rfl⟩

/-- C2: when the roster fetch returns a roster `R` and exactly `K > 0` of the probes
of the cycle return Dead, one run of `deregister` calls `vpnDeregister` exactly
once, with the hex encodings of the `K` keys judged Dead, in roster order; this
payload is the whole Dead Set, and every key of the roster is probed once. -/
theorem deregister_reports_dead_once (api : API σ) (R : vpnList) (K : Nat)
    (hfetch : (getVPNs E api.ServicesURLs.SD api).1 = .ok R)
    (hK : 0 < K)
    (hdead : (probeVerdicts T E (R.map fun v => v.Addr.PubKey) (cycleStart E api)).count false
      = K) :
    deregCalls (deregister T E api).trace = deregCalls api.trace ++
      [deadOf (R.map fun v => v.Addr.PubKey)
        (probeVerdicts T E (R.map fun v => v.Addr.PubKey) (cycleStart E api))] ∧
    (deadOf (R.map fun v => v.Addr.PubKey)
        (probeVerdicts T E (R.map fun v => v.Addr.PubKey) (cycleStart E api))).length = K ∧
    (deregister T E api).deadVPNs =
      deadOf (R.map fun v => v.Addr.PubKey)
        (probeVerdicts T E (R.map fun v => v.Addr.PubKey) (cycleStart E api)) ∧
    probeCalls (deregister T E api).trace
      = probeCalls api.trace ++ R.map (fun v => v.Addr.PubKey) := by
  obtain ⟨-, h2, h3, h4⟩ := deregister_spec T E api
  obtain ⟨hkeys, htrace⟩ := cycleStart_ok E api R hfetch
  rw [hkeys] at h2 h3 h4
  have hlen := deadOf_length (R.map fun v => v.Addr.PubKey)
    (probeVerdicts T E (R.map fun v => v.Addr.PubKey) (cycleStart E api))
    (probeVerdicts_length T E _ _)
  rw [hdead] at hlen
  have hne : deadOf (R.map fun v => v.Addr.PubKey)
      (probeVerdicts T E (R.map fun v => v.Addr.PubKey) (cycleStart E api)) ≠ [] := by
    intro h0
    rw [h0] at hlen
    simp at hlen
    omega
  have hp : probeCalls (cycleStart E api).trace = probeCalls api.trace := by
    rw [htrace]
    by_cases hR : R.length = 0 <;> simp [hR, probeCalls]
  have hd : deregCalls (cycleStart E api).trace = deregCalls api.trace := by
    rw [htrace]
    by_cases hR : R.length = 0 <;> simp [hR, deregCalls]
  rw [if_neg hne, hd] at h4
  rw [hp] at h3
  exact ⟨h4, hlen, h2, h3⟩

/-- Witness of C2, the scenario of the specification: roster `[A, B, C]` with A alive,
B failing to connect and C reporting server offline gives two Dead verdicts, one
reporter call with payload `[B, C]`, and the alive count 1 in the log. -/
theorem deregister_reports_dead_once_witness :
    (deregCalls (deregister simText simEnv scenario).trace = [[keyB.Hex, keyC.Hex]] ∧
      (deregister simText simEnv scenario).deadVPNs = [keyB.Hex, keyC.Hex] ∧
      probeCalls (deregister simText simEnv scenario).trace = [keyA, keyB, keyC]) ∧
    Event.log .info [("count", .int 1)] "VPNs online." []
      ∈ (deregister simText simEnv scenario).trace := by
  have h := deregister_reports_dead_once simText simEnv scenario
    [{ Addr := { pk := keyA, port := 44 } }, { Addr := { pk := keyB, port := 44 } },
     { Addr := { pk := keyC, port := 44 } }] 2 rfl (by decide) (by decide)
  refine ⟨⟨?_, ?_, ?_⟩, by decide⟩
  · exact h.1.trans (by decide)
  · exact h.2.2.1.trans (by decide)
  · exact h.2.2.2.trans (by decide)

/-- Counterexample of C3: in the second of two cycles the roster fetch fails, and
`deregister` still probes the key the first cycle left in `api.vpnKeys`, calls the
reporter with it, and ends with a Dead Set that is not empty. -/
theorem deregister_fetch_error_probes_stale_keys :
    (getVPNs simEnv (deregister simText simEnv staleScenario).ServicesURLs.SD
        (deregister simText simEnv staleScenario)).1 = .error (.other "connection refused") ∧
    probeCalls (deregister simText simEnv (deregister simText simEnv staleScenario)).trace
      = probeCalls (deregister simText simEnv staleScenario).trace ++ [keyB] ∧
    deregCalls (deregister simText simEnv (deregister simText simEnv staleScenario)).trace
      = deregCalls (deregister simText simEnv staleScenario).trace ++ [[keyB.Hex]] ∧
    (deregister simText simEnv (deregister simText simEnv staleScenario)).deadVPNs
      = [keyB.Hex] := by
  refine ⟨rfl, ?_, ?_, ?_⟩ <;> decide

/-- C3, amended: when the roster fetch of a cycle fails, `deregister` keeps the keys
that earlier cycles left in `api.vpnKeys` and probes exactly those, in order; when
no key was left (as in the first cycle), the cycle makes no probe and no
deregistration call and its Dead Set is empty. -/
theorem deregister_fetch_error (api : API σ) (err : GoError)
    (hfetch : (getVPNs E api.ServicesURLs.SD api).1 = .error err) :
    (deregister T E api).vpnKeys = api.vpnKeys ∧
    probeCalls (deregister T E api).trace = probeCalls api.trace ++ api.vpnKeys ∧
    (api.vpnKeys = [] →
      probeCalls (deregister T E api).trace = probeCalls api.trace ∧
      deregCalls (deregister T E api).trace = deregCalls api.trace ∧
      (deregister T E api).deadVPNs = []) := by
  obtain ⟨h1, h2, h3, h4⟩ := deregister_spec T E api
  obtain ⟨hkeys, htrace⟩ := cycleStart_error E api err hfetch
  have hp : probeCalls (cycleStart E api).trace = probeCalls api.trace := by
    rw [htrace]
    simp [probeCalls]
  have hd : deregCalls (cycleStart E api).trace = deregCalls api.trace := by
    rw [htrace]
    simp [deregCalls]
  rw [hkeys] at h1 h2 h3 h4
  rw [hp] at h3
  rw [hd] at h4
  refine ⟨h1, h3, fun h0 => ?_⟩
  rw [h0] at h2 h3 h4
  simp only [deadOf, if_true, List.append_nil] at h2 h3 h4
  exact ⟨h3, h4, h2⟩

/-- Witness of C3 amended: the first cycle of a world whose roster query fails. -/
theorem deregister_fetch_error_witness :
    (getVPNs simEnv noFetchScenario.ServicesURLs.SD noFetchScenario).1
      = .error (.other "connection refused") ∧
    (deregister simText simEnv noFetchScenario).vpnKeys = [] ∧
    probeCalls (deregister simText simEnv noFetchScenario).trace = [] ∧
    deregCalls (deregister simText simEnv noFetchScenario).trace = [] ∧
    (deregister simText simEnv noFetchScenario).deadVPNs = [] := by
  have h := deregister_fetch_error simText simEnv noFetchScenario
    (.other "connection refused") rfl
  exact ⟨rfl, h.1, (h.2.2 rfl).1, (h.2.2 rfl).2.1, (h.2.2 rfl).2.2⟩

/-- C9: when the roster fetch succeeds with a roster of size 0, `deregister` calls
neither `isOnline` nor `vpnDeregister`, logs the warning `No VPN keys found`, and
ends with an empty Dead Set; the events of the cycle are exactly the six listed. -/
theorem deregister_empty_roster (api : API σ) (R : vpnList)
    (hfetch : (getVPNs E api.ServicesURLs.SD api).1 = .ok R)
    (hsize : R.length = 0) :
    (deregister T E api).trace = api.trace ++
      [.log .info [] "VPN Deregistration started." [],
       .httpGet (api.ServicesURLs.SD ++ "/api/services?type=vpn"),
       .log .warn [] "No vpns found... Trying again" [],
       .log .info [("vpns", .int 0)] "Vpn keys updated." [],
       .log .warn [] "No VPN keys found" [],
       .log .info [("Number of dead VPNs", .int 0), ("PKs", .strs [])]
         "VPN Deregistration completed." []] ∧
    probeCalls (deregister T E api).trace = probeCalls api.trace ∧
    deregCalls (deregister T E api).trace = deregCalls api.trace ∧
    (deregister T E api).deadVPNs = [] ∧
    (deregister T E api).vpnKeys = [] := by
  have hR : R = [] := List.length_eq_zero.mp hsize
  subst hR
  obtain ⟨hkeys, htrace⟩ := cycleStart_ok E api [] hfetch
  have hd : (cycleStart E api).deadVPNs = [] := rfl
  have hunf : deregister T E api =
      (let a :=
        if (cycleStart E api).vpnKeys.length = 0 then
          (cycleStart E api).log .warn [] "No VPN keys found" []
        else
          let r := testVPNs T E (cycleStart E api).vpnKeys 0 (cycleStart E api)
          let a := r.2.log .info [("count", .int r.1)] "VPNs online." []
          if a.deadVPNs.length > 0 then vpnDeregister T E a.deadVPNs a else a
       a.log .info [("Number of dead VPNs", .int a.deadVPNs.length), ("PKs", .strs a.deadVPNs)]
        "VPN Deregistration completed." []) := rfl
  have htr : (deregister T E api).trace = api.trace ++
      [.log .info [] "VPN Deregistration started." [],
       .httpGet (api.ServicesURLs.SD ++ "/api/services?type=vpn"),
       .log .warn [] "No vpns found... Trying again" [],
       .log .info [("vpns", .int 0)] "Vpn keys updated." [],
       .log .warn [] "No VPN keys found" [],
       .log .info [("Number of dead VPNs", .int 0), ("PKs", .strs [])]
         "VPN Deregistration completed." []] := by
    rw [hunf]
    simp [hkeys, htrace, hd]
  refine ⟨htr, ?_, ?_, ?_, ?_⟩
  · rw [htr]
    simp [probeCalls]
  · rw [htr]
    simp [deregCalls]
  · rw [hunf]
    simp [hkeys, hd]
  · rw [hunf]
    simp [hkeys]

/-- Witness of C9: a world whose roster query answers the empty roster. -/
theorem deregister_empty_roster_witness :
    (getVPNs simEnv emptyRosterScenario.ServicesURLs.SD emptyRosterScenario).1 = .ok [] ∧
    probeCalls (deregister simText simEnv emptyRosterScenario).trace = [] ∧
    deregCalls (deregister simText simEnv emptyRosterScenario).trace = [] ∧
    (deregister simText simEnv emptyRosterScenario).deadVPNs = [] ∧
    Event.log .warn [] "No VPN keys found" []
      ∈ (deregister simText simEnv emptyRosterScenario).trace := by
  have h := deregister_empty_roster simText simEnv emptyRosterScenario [] rfl rfl
  refine ⟨rfl, h.2.1, h.2.2.1, h.2.2.2.1, ?_⟩
  rw [h.1]
  simp

end Cycle

/-! ## The probe -/

section Probe

variable (T : VpnErrText) (E : Env σ)

/-- Counterexample of C4: the transport opens, the client reports the app error
text `handshake failed`, which is none of the three known texts; `RunVpnClient`
ignores it and returns the summary with no error, and `isOnline` answers Alive. -/
theorem isOnline_alive_on_unknown_app_error_text :
    (simEnv.AddTransport unknownTextScenario.world keyA DMSG 10).2 = .ok { ID := 7 } ∧
    (sessionAnswers simEnv VPNClientName keyA
      (simEnv.AddTransport unknownTextScenario.world keyA DMSG 10).1).appErr
        = "handshake failed" ∧
    "handshake failed" ≠ simText.setupNode ∧
    "handshake failed" ≠ simText.notPermitted ∧
    "handshake failed" ≠ simText.serverOffline ∧
    (RunVpnClient simText simEnv keyA VPNClientName
      (sessionStart simEnv keyA unknownTextScenario)).1 = ([{ Latency := 25 }], none) ∧
    (isOnline simText simEnv keyA unknownTextScenario).1 = true := by
  refine ⟨rfl, rfl, ?_, ?_, ?_, rfl, rfl⟩ <;> decide

/-- C4, amended: for every endpoint whose transport opens, if `RunVpnClient` returns
any error other than `ErrSetupNode` and `ErrNotPermitted`, `isOnline` returns Dead.
This covers an error returned by `SetAppPK`, `StartApp`, `GetAppConnectionsSummary`
or `StopApp`, and the app error text of `ErrServerOffline` reported by
`GetAppError` (the texts of the three sentinels being distinct).  An app error
text that is none of the three known texts is not covered: `RunVpnClient` does
not turn it into an error. -/
theorem isOnline_dead_on_session_error (key : PubKey) (api : API σ) (tp : TransportSummary)
    (hconn : (E.AddTransport api.world key DMSG 10).2 = .ok tp) :
    (∀ err, (RunVpnClient T E key VPNClientName (sessionStart E key api)).1.2 = some err →
      err ≠ .ErrSetupNode → err ≠ .ErrNotPermitted → (isOnline T E key api).1 = false) ∧
    (∀ err, (sessionAnswers E VPNClientName key
        (E.AddTransport api.world key DMSG 10).1).setAppPK = some err →
      err ≠ .ErrSetupNode → err ≠ .ErrNotPermitted → (isOnline T E key api).1 = false) ∧
    (∀ err, (sessionAnswers E VPNClientName key
        (E.AddTransport api.world key DMSG 10).1).setAppPK = none →
      (sessionAnswers E VPNClientName key
        (E.AddTransport api.world key DMSG 10).1).startApp = some err →
      err ≠ .ErrSetupNode → err ≠ .ErrNotPermitted → (isOnline T E key api).1 = false) ∧
    ((sessionAnswers E VPNClientName key
        (E.AddTransport api.world key DMSG 10).1).setAppPK = none →
      (sessionAnswers E VPNClientName key
        (E.AddTransport api.world key DMSG 10).1).startApp = none →
      (sessionAnswers E VPNClientName key
        (E.AddTransport api.world key DMSG 10).1).appErr = T.serverOffline →
      T.serverOffline ≠ T.setupNode → T.serverOffline ≠ T.notPermitted →
      (isOnline T E key api).1 = false) ∧
    (∀ err, (sessionAnswers E VPNClientName key
        (E.AddTransport api.world key DMSG 10).1).setAppPK = none →
      (sessionAnswers E VPNClientName key
        (E.AddTransport api.world key DMSG 10).1).startApp = none →
      (sessionAnswers E VPNClientName key
        (E.AddTransport api.world key DMSG 10).1).appErr ≠ T.setupNode →
      (sessionAnswers E VPNClientName key
        (E.AddTransport api.world key DMSG 10).1).appErr ≠ T.notPermitted →
      (sessionAnswers E VPNClientName key
        (E.AddTransport api.world key DMSG 10).1).appErr ≠ T.serverOffline →
      (sessionAnswers E VPNClientName key
        (E.AddTransport api.world key DMSG 10).1).summary = .error err →
      err ≠ .ErrSetupNode → err ≠ .ErrNotPermitted → (isOnline T E key api).1 = false) ∧
    (∀ err sum, (sessionAnswers E VPNClientName key
        (E.AddTransport api.world key DMSG 10).1).setAppPK = none →
      (sessionAnswers E VPNClientName key
        (E.AddTransport api.world key DMSG 10).1).startApp = none →
      (sessionAnswers E VPNClientName key
        (E.AddTransport api.world key DMSG 10).1).appErr ≠ T.setupNode →
      (sessionAnswers E VPNClientName key
        (E.AddTransport api.world key DMSG 10).1).appErr ≠ T.notPermitted →
      (sessionAnswers E VPNClientName key
        (E.AddTransport api.world key DMSG 10).1).appErr ≠ T.serverOffline →
      (sessionAnswers E VPNClientName key
        (E.AddTransport api.world key DMSG 10).1).summary = .ok sum →
      (sessionAnswers E VPNClientName key
        (E.AddTransport api.world key DMSG 10).1).stopApp = some err →
      err ≠ .ErrSetupNode → err ≠ .ErrNotPermitted → (isOnline T E key api).1 = false) := by
  have hres := RunVpnClient_result T E key VPNClientName (sessionStart E key api)
  have hw : (sessionStart E key api).world = (E.AddTransport api.world key DMSG 10).1 := rfl
  rw [hw] at hres
  have main : ∀ err,
      (RunVpnClient T E key VPNClientName (sessionStart E key api)).1.2 = some err →
      err ≠ .ErrSetupNode → err ≠ .ErrNotPermitted → (isOnline T E key api).1 = false := by
    intro err hrun h1 h2
    rw [isOnline_connected T E key api tp hconn]
    have hv := vpnErrSwitch_verdict key
      (RunVpnClient T E key VPNClientName (sessionStart E key api)).1.1
      (RunVpnClient T E key VPNClientName (sessionStart E key api)).1.2
      (RunVpnClient T E key VPNClientName (sessionStart E key api)).2
    rw [hrun] at hv ⊢
    cases hb : (vpnErrSwitch key
      (RunVpnClient T E key VPNClientName (sessionStart E key api)).1.1 (some err)
      (RunVpnClient T E key VPNClientName (sessionStart E key api)).2).1 with
    | false => rfl
    | true =>
      rcases hv.mp hb with h | h | h
      · exact absurd h (by simp)
      · exact absurd (Option.some.inj h) h1
      · exact absurd (Option.some.inj h) h2
  refine ⟨main, ?_, ?_, ?_, ?_, ?_⟩
  · intro err h1 n1 n2
    refine main err ?_ n1 n2
    rw [hres, h1]
  · intro err h1 h2 n1 n2
    refine main err ?_ n1 n2
    rw [hres, h1, h2]
  · intro h1 h2 h3 d1 d2
    refine main .ErrServerOffline ?_ (by simp) (by simp)
    rw [hres, h1, h2, h3]
    simp [d1, d2]
  · intro err h1 h2 t1 t2 t3 h4 n1 n2
    refine main err ?_ n1 n2
    rw [hres, h1, h2, h4]
    simp [t1, t2, t3]
  · intro err sum h1 h2 t1 t2 t3 h4 h5 n1 n2
    refine main err ?_ n1 n2
    rw [hres, h1, h2, h4, h5]
    simp [t1, t2, t3]

/-- Witness of C4 amended: the client reports `server offline`; the verdict is Dead
both by the error `RunVpnClient` returns and by the answers of the visor. -/
theorem isOnline_dead_on_session_error_witness :
    (simEnv.AddTransport (appErrScenario "server offline" false).world keyA DMSG 10).2
      = .ok { ID := 7 } ∧
    (RunVpnClient simText simEnv keyA VPNClientName
      (sessionStart simEnv keyA (appErrScenario "server offline" false))).1.2
        = some .ErrServerOffline ∧
    (sessionAnswers simEnv VPNClientName keyA
      (simEnv.AddTransport (appErrScenario "server offline" false).world keyA DMSG 10).1).appErr
        = simText.serverOffline ∧
    (isOnline simText simEnv keyA (appErrScenario "server offline" false)).1 = false ∧
    (isOnline simText simEnv keyA (appErrScenario "server offline" false)).1 = false :=
  ⟨rfl, rfl, rfl,
    (isOnline_dead_on_session_error simText simEnv keyA (appErrScenario "server offline" false)
      { ID := 7 } rfl).1 .ErrServerOffline rfl (by decide) (by decide),
    (isOnline_dead_on_session_error simText simEnv keyA (appErrScenario "server offline" false)
      { ID := 7 } rfl).2.2.2.1 rfl rfl rfl (by decide) (by decide)⟩

/-- C5: for every endpoint for which `Visor.AddTransport` fails, `isOnline` returns
Dead after three events (its entry, the call of `AddTransport`, the warning):
`RunVpnClient` is not called, none of `SetAppPK`, `StartApp`, `GetAppError`,
`GetAppConnectionsSummary`, `StopApp` is called, and no transport removal is
attempted. -/
theorem isOnline_no_session_without_transport (key : PubKey) (api : API σ) (err : GoError)
    (hconn : (E.AddTransport api.world key DMSG 10).2 = .error err) :
    (isOnline T E key api).1 = false ∧
    (isOnline T E key api).2.trace = api.trace ++
      [.isOnline key, .AddTransport key DMSG 10,
       .log .warn [("error", .err err)] "Failed to establish %v transport" [.str DMSG]] ∧
    sessionCalls (isOnline T E key api).2.trace = sessionCalls api.trace ∧
    removeCalls (isOnline T E key api).2.trace = removeCalls api.trace := by
  obtain ⟨h1, h2⟩ := isOnline_unconnected T E key api err hconn
  refine ⟨h1, h2, ?_, ?_⟩
  · rw [h2]
    simp [sessionCalls]
  · rw [h2]
    simp [removeCalls]

/-- Witness of C5: endpoint B of the scenario accepts no transport. -/
theorem isOnline_no_session_without_transport_witness :
    (simEnv.AddTransport scenario.world keyB DMSG 10).2 = .error (.other "dial timeout") ∧
    (isOnline simText simEnv keyB scenario).1 = false ∧
    sessionCalls (isOnline simText simEnv keyB scenario).2.trace = [] ∧
    removeCalls (isOnline simText simEnv keyB scenario).2.trace = [] := by
  have h := isOnline_no_session_without_transport simText simEnv keyB scenario
    (.other "dial timeout") rfl
  exact ⟨rfl, h.1, h.2.2.1, h.2.2.2⟩

/-- C6: for every endpoint whose transport opens and whose session is started
(`SetAppPK` and `StartApp` return no error), if the app error text reported by
`GetAppError` is that of `ErrSetupNode`, or that of `ErrNotPermitted` (the two texts
being distinct), `RunVpnClient` returns that sentinel and `isOnline` returns Alive,
whatever `RemoveTransport` answers afterwards. -/
theorem isOnline_alive_on_benign_error (key : PubKey) (api : API σ) (tp : TransportSummary)
    (hconn : (E.AddTransport api.world key DMSG 10).2 = .ok tp)
    (hset : (sessionAnswers E VPNClientName key
      (E.AddTransport api.world key DMSG 10).1).setAppPK = none)
    (hstart : (sessionAnswers E VPNClientName key
      (E.AddTransport api.world key DMSG 10).1).startApp = none) :
    ((sessionAnswers E VPNClientName key
        (E.AddTransport api.world key DMSG 10).1).appErr = T.setupNode →
      (RunVpnClient T E key VPNClientName (sessionStart E key api)).1
        = ([], some .ErrSetupNode) ∧
      ∀ f, (isOnline T { E with RemoveTransport := f } key api).1 = true) ∧
    ((sessionAnswers E VPNClientName key
        (E.AddTransport api.world key DMSG 10).1).appErr = T.notPermitted →
      T.notPermitted ≠ T.setupNode →
      (RunVpnClient T E key VPNClientName (sessionStart E key api)).1
        = ([], some .ErrNotPermitted) ∧
      ∀ f, (isOnline T { E with RemoveTransport := f } key api).1 = true) := by
  have hres := RunVpnClient_result T E key VPNClientName (sessionStart E key api)
  have hw : (sessionStart E key api).world = (E.AddTransport api.world key DMSG 10).1 := rfl
  rw [hw, hset, hstart] at hres
  have alive : ∀ e,
      (RunVpnClient T E key VPNClientName (sessionStart E key api)).1 = ([], some e) →
      (e = .ErrSetupNode ∨ e = .ErrNotPermitted) →
      ∀ f, (isOnline T { E with RemoveTransport := f } key api).1 = true := by
    intro e hrun he f
    rw [isOnline_remove T E f key api, isOnline_connected T E key api tp hconn]
    apply (vpnErrSwitch_verdict key _ _ _).mpr
    rw [hrun]
    rcases he with rfl | rfl
    · exact Or.inr (Or.inl rfl)
    · exact Or.inr (Or.inr rfl)
  constructor
  · intro h3
    have hrun : (RunVpnClient T E key VPNClientName (sessionStart E key api)).1
        = ([], some .ErrSetupNode) := by
      rw [hres, h3]
      simp
    exact ⟨hrun, alive _ hrun (Or.inl rfl)⟩
  · intro h3 hd
    have hrun : (RunVpnClient T E key VPNClientName (sessionStart E key api)).1
        = ([], some .ErrNotPermitted) := by
      rw [hres, h3]
      simp [hd]
    exact ⟨hrun, alive _ hrun (Or.inr rfl)⟩

/-- Witness of C6: the client reports the text of `ErrNotPermitted`, and removing
the transport fails. -/
theorem isOnline_alive_on_benign_error_witness :
    (RunVpnClient simText simEnv keyA VPNClientName
      (sessionStart simEnv keyA (appErrScenario "not permitted" true))).1
        = ([], some .ErrNotPermitted) ∧
    (isOnline simText simEnv keyA (appErrScenario "not permitted" true)).1 = true := by
  have h := (isOnline_alive_on_benign_error simText simEnv keyA
    (appErrScenario "not permitted" true) { ID := 7 } rfl rfl rfl).2 rfl (by decide)
  exact ⟨h.1, h.2 simEnv.RemoveTransport⟩

/-- C7: for every endpoint whose transport opens and whose session completes with no
error and a non-empty connection summary `sum`, `isOnline` returns Alive, whatever
the latency values in `sum`: the latency read from the first entry, zero or not,
does not enter the verdict. -/
theorem isOnline_alive_on_clean_session (key : PubKey) (api : API σ) (tp : TransportSummary)
    (sum : List ConnectionSummary)
    (hconn : (E.AddTransport api.world key DMSG 10).2 = .ok tp)
    (hrun : (RunVpnClient T E key VPNClientName (sessionStart E key api)).1 = (sum, none))
    (hsum : sum ≠ []) :
    (isOnline T E key api).1 = true ∧
    (vpnErrSwitch key sum none
      (RunVpnClient T E key VPNClientName (sessionStart E key api)).2).2.1
        = (sum.head hsum).Latency := by
  constructor
  · rw [isOnline_connected T E key api tp hconn]
    apply (vpnErrSwitch_verdict key _ _ _).mpr
    rw [hrun]
    exact Or.inl rfl
  · cases sum with
    | nil => exact absurd rfl hsum
    | cons s0 rest => rfl

/-- Witness of C7: a clean session whose summary carries the latency zero, and one
whose summary carries the latency 25. -/
theorem isOnline_alive_on_clean_session_witness :
    (isOnline simText simEnv keyA (cleanScenario [{ Latency := 0 }] false)).1 = true ∧
    (isOnline simText simEnv keyA (cleanScenario [{ Latency := 25 }] false)).1 = true :=
  ⟨(isOnline_alive_on_clean_session simText simEnv keyA
      (cleanScenario [{ Latency := 0 }] false)
      { ID := 7 } [{ Latency := 0 }] rfl rfl (by decide)).1,
   (isOnline_alive_on_clean_session simText simEnv keyA
      (cleanScenario [{ Latency := 25 }] false)
      { ID := 7 } [{ Latency := 25 }] rfl rfl (by decide)).1⟩

/-- C8: for every probe whose transport opened, `isOnline` calls
`Visor.RemoveTransport` exactly once before returning, on the transport it opened,
on every session outcome; and the verdict is the same whatever `RemoveTransport`
answers (the verdict is the only thing `isOnline` returns, so a teardown failure
does not reach the caller). -/
theorem isOnline_removes_transport_once (key : PubKey) (api : API σ) (tp : TransportSummary)
    (hconn : (E.AddTransport api.world key DMSG 10).2 = .ok tp) :
    removeCalls (isOnline T E key api).2.trace = removeCalls api.trace ++ [tp.ID] ∧
    (∀ f, removeCalls (isOnline T { E with RemoveTransport := f } key api).2.trace
      = removeCalls api.trace ++ [tp.ID]) ∧
    (∀ f, (isOnline T { E with RemoveTransport := f } key api).1 = (isOnline T E key api).1) :=
  ⟨isOnline_removeCalls T E key api tp hconn,
   fun f => isOnline_removeCalls T { E with RemoveTransport := f } key api tp hconn,
   fun f => isOnline_remove T E f key api⟩

/-- Witness of C8: a clean session, with the removal failing and with the removal
succeeding. -/
theorem isOnline_removes_transport_once_witness :
    removeCalls (isOnline simText simEnv keyA (cleanScenario [] true)).2.trace = [7] ∧
    (isOnline simText { simEnv with RemoveTransport := fun w _ => (w, none) } keyA
        (cleanScenario [] true)).1
      = (isOnline simText simEnv keyA (cleanScenario [] true)).1 := by
  have h := isOnline_removes_transport_once simText simEnv keyA (cleanScenario [] true)
    { ID := 7 } rfl
  exact ⟨h.1, h.2.2 _⟩

/-- C10: the verdict of `isOnline` does not depend on the connection summary: for
every endpoint whose transport opens, `isOnline` returns Alive exactly when the
error returned by `RunVpnClient` is nil, `ErrSetupNode` or `ErrNotPermitted`; in
particular a session that ends with no error and an empty connection summary is
Alive. -/
theorem isOnline_verdict_iff (key : PubKey) (api : API σ) (tp : TransportSummary)
    (hconn : (E.AddTransport api.world key DMSG 10).2 = .ok tp) :
    ((isOnline T E key api).1 = true ↔
      ((RunVpnClient T E key VPNClientName (sessionStart E key api)).1.2 = none ∨
       (RunVpnClient T E key VPNClientName (sessionStart E key api)).1.2
          = some .ErrSetupNode ∨
       (RunVpnClient T E key VPNClientName (sessionStart E key api)).1.2
          = some .ErrNotPermitted)) ∧
    ((RunVpnClient T E key VPNClientName (sessionStart E key api)).1 = ([], none) →
      (isOnline T E key api).1 = true) := by
  have hiff : (isOnline T E key api).1 = true ↔
      ((RunVpnClient T E key VPNClientName (sessionStart E key api)).1.2 = none ∨
       (RunVpnClient T E key VPNClientName (sessionStart E key api)).1.2
          = some .ErrSetupNode ∨
       (RunVpnClient T E key VPNClientName (sessionStart E key api)).1.2
          = some .ErrNotPermitted) := by
    rw [isOnline_connected T E key api tp hconn]
    exact vpnErrSwitch_verdict key _ _ _
  refine ⟨hiff, fun h => hiff.mpr (Or.inl ?_)⟩
  rw [h]

/-- Witness of C10: a session with no error and an empty connection summary. -/
theorem isOnline_verdict_iff_witness :
    (RunVpnClient simText simEnv keyA VPNClientName
      (sessionStart simEnv keyA (cleanScenario [] false))).1 = ([], none) ∧
    (isOnline simText simEnv keyA (cleanScenario [] false)).1 = true :=
  ⟨rfl, (isOnline_verdict_iff simText simEnv keyA (cleanScenario [] false)
    { ID := 7 } rfl).2 rfl⟩

end Probe

end VpnMonitor
